import Mathlib

/-!
Shallow embedding of the geometric-verification core of Kimera-VIO:
the optical-flow predictors of `frontend/Tracker.h` and the loop-closure
candidate data model of `loopclosure/LoopClosureDetector-definitions.h`.

Real-valued machine arithmetic (`float`/`double` fields, `cv::Matx33f`,
`cv::Point2f`) is embedded over the rationals `ℚ` (exact arithmetic);
`FrameId` (a 64-bit unsigned id) over `Nat` with explicit modular
arithmetic where C++ unsigned wraparound matters.
-/

namespace VIO

/-- Embedding of `cv::Matx33f`: a 3×3 matrix, entries over `ℚ`. -/
structure Mat3 where
  m00 : ℚ
  m01 : ℚ
  m02 : ℚ
  m10 : ℚ
  m11 : ℚ
  m12 : ℚ
  m20 : ℚ
  m21 : ℚ
  m22 : ℚ
deriving DecidableEq, Repr

/-- Embedding of `cv::Vec3f`. -/
structure Vec3 where
  x : ℚ
  y : ℚ
  z : ℚ
deriving DecidableEq, Repr

/-- Matrix product, as for `cv::Matx33f::operator*`. -/
def Mat3.mul (A B : Mat3) : Mat3 :=
  ⟨A.m00 * B.m00 + A.m01 * B.m10 + A.m02 * B.m20,
   A.m00 * B.m01 + A.m01 * B.m11 + A.m02 * B.m21,
   A.m00 * B.m02 + A.m01 * B.m12 + A.m02 * B.m22,
   A.m10 * B.m00 + A.m11 * B.m10 + A.m12 * B.m20,
   A.m10 * B.m01 + A.m11 * B.m11 + A.m12 * B.m21,
   A.m10 * B.m02 + A.m11 * B.m12 + A.m12 * B.m22,
   A.m20 * B.m00 + A.m21 * B.m10 + A.m22 * B.m20,
   A.m20 * B.m01 + A.m21 * B.m11 + A.m22 * B.m21,
   A.m20 * B.m02 + A.m21 * B.m12 + A.m22 * B.m22⟩

/-- Matrix-vector product, as in `cv::Vec3f p2 = H * p1`. -/
def Mat3.mulVec (A : Mat3) (v : Vec3) : Vec3 :=
  ⟨A.m00 * v.x + A.m01 * v.y + A.m02 * v.z,
   A.m10 * v.x + A.m11 * v.y + A.m12 * v.z,
   A.m20 * v.x + A.m21 * v.y + A.m22 * v.z⟩

/-- Identity 3×3 matrix (also the matrix of the default `gtsam::Rot3`). -/
def Mat3.id : Mat3 := ⟨1, 0, 0, 0, 1, 0, 0, 0, 1⟩

/-- Determinant of a 3×3 matrix. -/
def Mat3.det (A : Mat3) : ℚ :=
  A.m00 * (A.m11 * A.m22 - A.m12 * A.m21)
    - A.m01 * (A.m10 * A.m22 - A.m12 * A.m20)
    + A.m02 * (A.m10 * A.m21 - A.m11 * A.m20)

/-- Matrix inverse (adjugate over determinant), embedding `cv::Matx33f::inv()`;
for a singular matrix every entry divides by zero and, as `(0 : ℚ)⁻¹ = 0`,
the result is the zero matrix, matching OpenCV returning a zero matrix. -/
def Mat3.inv (A : Mat3) : Mat3 :=
  let d := A.det
  ⟨(A.m11 * A.m22 - A.m12 * A.m21) / d,
   (A.m02 * A.m21 - A.m01 * A.m22) / d,
   (A.m01 * A.m12 - A.m02 * A.m11) / d,
   (A.m12 * A.m20 - A.m10 * A.m22) / d,
   (A.m00 * A.m22 - A.m02 * A.m20) / d,
   (A.m02 * A.m10 - A.m00 * A.m12) / d,
   (A.m10 * A.m21 - A.m11 * A.m20) / d,
   (A.m01 * A.m20 - A.m00 * A.m21) / d,
   (A.m00 * A.m11 - A.m01 * A.m10) / d⟩

/-- Embedding of `KeypointCV = cv::Point2f`: a 2D pixel location. -/
abbrev KeypointCV : Type := ℚ × ℚ

/-- Embedding of `KeypointsCV`: an ordered sequence of 2D keypoints. -/
abbrev KeypointsCV : Type := List KeypointCV

/-- Embedding of `SillyOpticalFlowPredictor::predictFlow`: the C++ body is
`*CHECK_NOTNULL(next_kps) = prev_kps; return true;`.  The out-parameter is
rendered as the second component of the returned pair. -/
def sillyPredictFlow (prev_kps : KeypointsCV) : Bool × KeypointsCV :=
  (true, prev_kps)

/-- State of a `RotationalOpticalFlowPredictor`: the fixed intrinsic matrix
`K_`, its inverse `K_inverse_` precomputed at construction, and the mutable
inter-frame rotation estimate (as its 3×3 matrix, the image of
`UtilsOpenCV::gtsamMatrix3ToCvMat(inter_frame_rotation_.matrix())`). -/
structure RotationalOpticalFlowPredictor where
  K_ : Mat3
  K_inverse_ : Mat3
  inter_frame_rotation_ : Mat3
deriving DecidableEq, Repr

/-- Embedding of the constructor `RotationalOpticalFlowPredictor(K)`:
initialises `K_(K), K_inverse_(K.inv())`; the member `inter_frame_rotation_`
is default-initialised (`gtsam::Rot3()` is the identity rotation). -/
def mkRotationalOpticalFlowPredictor (K : Mat3) : RotationalOpticalFlowPredictor :=
  ⟨K, K.inv, Mat3.id⟩

/-- Embedding of `RotationalOpticalFlowPredictor::updateInterFrameRotation`.
The C++ body assigns `inter_frame_rotation_ = rotation;` and then falls off
the end of a function declared `bool` without executing any return
statement; the produced return value is therefore modelled as `none`
(no well-defined boolean), paired with the updated state. -/
def RotationalOpticalFlowPredictor.updateInterFrameRotation
    (s : RotationalOpticalFlowPredictor) (rotation : Mat3) :
    RotationalOpticalFlowPredictor × Option Bool :=
  ({ s with inter_frame_rotation_ := rotation }, none)

/-- Per-keypoint body of the prediction loop in
`RotationalOpticalFlowPredictor::predictFlow`: lift the previous keypoint to
the homogeneous `(x, y, 1)`, apply the homography, and either perspective-
divide (when the transformed depth is strictly positive) or keep the old
corner. -/
def predictKeypoint (H : Mat3) (p : KeypointCV) : KeypointCV :=
  let p1 : Vec3 := ⟨p.1, p.2, 1⟩
  let p2 : Vec3 := H.mulVec p1
  if 0 < p2.z then (p2.x / p2.z, p2.y / p2.z) else p

/-- Embedding of `RotationalOpticalFlowPredictor::predictFlow`: forms
`H = K_ * R * K_inverse_`, resizes the output to the input size, fills each
slot from the same-index input keypoint, and returns `true`. -/
def RotationalOpticalFlowPredictor.predictFlow
    (s : RotationalOpticalFlowPredictor) (prev_kps : KeypointsCV) :
    Bool × KeypointsCV :=
  let R : Mat3 := s.inter_frame_rotation_
  let H : Mat3 := (s.K_.mul R).mul s.K_inverse_
  (true, prev_kps.map (predictKeypoint H))

/-- Constant `2^64`, the modulus of the 64-bit unsigned `FrameId` and
`size_t` arithmetic (`FrameId` is a 64-bit unsigned integer type declared in
`common/vio_types.h`). -/
def UINT64_MOD : Nat := 18446744073709551616

/-- Embedding of `struct MatchIsland` (`LoopClosureDetector-definitions.h`):
a contiguous range of candidate keyframe ids with an aggregate score and the
best-scoring member.  `FrameId` fields are embedded as `Nat` holding 64-bit
unsigned values; `double` scores as `ℚ`. -/
structure MatchIsland where
  start_id_ : Nat
  end_id_ : Nat
  island_score_ : ℚ
  best_id_ : Nat
  best_score_ : ℚ
deriving DecidableEq, Repr

/-- Embedding of the default constructor `MatchIsland()`. -/
def MatchIsland.mkDefault : MatchIsland := ⟨0, 0, 0, 0, 0⟩

/-- Embedding of the constructor `MatchIsland(start, end)`. -/
def MatchIsland.mkRange (start stop : Nat) : MatchIsland := ⟨start, stop, 0, 0, 0⟩

/-- Embedding of the constructor `MatchIsland(start, end, score)`. -/
def MatchIsland.mkRangeScore (start stop : Nat) (score : ℚ) : MatchIsland :=
  ⟨start, stop, score, 0, 0⟩

/-- Embedding of `MatchIsland::clear()`: zeroes every field. -/
def MatchIsland.clear (_i : MatchIsland) : MatchIsland := ⟨0, 0, 0, 0, 0⟩

/-- Embedding of `MatchIsland::size()`:
`return end_id_ - start_id_ + 1;` computed in 64-bit unsigned arithmetic
(difference and increment both wrap modulo `2^64`). -/
def MatchIsland.size (i : MatchIsland) : Nat :=
  ((i.end_id_ + (UINT64_MOD - i.start_id_ % UINT64_MOD)) % UINT64_MOD + 1) % UINT64_MOD

/-- Embedding of `MatchIsland::operator<`: compares by `island_score_` only. -/
def MatchIsland.ltb (a b : MatchIsland) : Bool :=
  decide (a.island_score_ < b.island_score_)

/-- Embedding of `MatchIsland::operator>`: compares by `island_score_` only. -/
def MatchIsland.gtb (a b : MatchIsland) : Bool :=
  decide (a.island_score_ > b.island_score_)

/-- Embedding of `enum class LCDStatus`: the eight terminal statuses of the
loop-closure rejection pipeline. -/
inductive LCDStatus where
  | LOOP_DETECTED
  | NO_MATCHES
  | LOW_NSS_FACTOR
  | LOW_SCORE
  | NO_GROUPS
  | FAILED_TEMPORAL_CONSTRAINT
  | FAILED_GEOM_VERIFICATION
  | FAILED_POSE_RECOVERY
deriving DecidableEq, Repr

/-- Embedding of `gtsam::Pose3` as far as this data model needs it: a
rotation matrix together with a translation vector. -/
structure Pose3 where
  rot : Mat3
  trans : Vec3
deriving DecidableEq, Repr

/-- Embedding of `struct LoopResult`: one terminal status plus the query and
match ids and the recovered relative pose. -/
structure LoopResult where
  status_ : LCDStatus
  query_id_ : Nat
  match_id_ : Nat
  relative_pose_ : Pose3
deriving DecidableEq, Repr

/-- Embedding of `LoopResult::isLoop()`:
`return status_ == LCDStatus::LOOP_DETECTED;`. -/
def LoopResult.isLoop (r : LoopResult) : Bool :=
  decide (r.status_ = LCDStatus.LOOP_DETECTED)

/-- Embedding of `Frame` as far as `removeOutliersMono` touches it: an
ordered keypoint list with the parallel per-keypoint landmark-id list
(`-1` meaning unassigned). -/
structure Frame where
  keypoints_ : KeypointsCV
  landmarks_ : List Int
deriving DecidableEq

/-- Helper walking a landmark-id list with its running keypoint index `j`,
unassigning (setting to `-1`) exactly the ids whose index is listed in
`idxs`. -/
def unassignFrom (idxs : List Nat) : Nat → List Int → List Int
  | _, [] => []
  | j, l :: ls => (if j ∈ idxs then (-1 : Int) else l) :: unassignFrom idxs (j + 1) ls

/-- Unassign the landmark ids of a frame at the given keypoint indices. -/
def unassignLandmarks (f : Frame) (idxs : List Nat) : Frame :=
  { f with landmarks_ := unassignFrom idxs 0 f.landmarks_ }

/-- Keypoint indices of `ref_frame` belonging to matches whose position in
the match list is not in the inlier index set. -/
def refOutlierKpIdxs (matches_ref_cur : List (Nat × Nat)) (inliers : List Int) : List Nat :=
  matches_ref_cur.enum.filterMap
    (fun p => if (p.1 : Int) ∈ inliers then none else some p.2.1)

/-- Keypoint indices of `cur_frame` belonging to matches whose position in
the match list is not in the inlier index set. -/
def curOutlierKpIdxs (matches_ref_cur : List (Nat × Nat)) (inliers : List Int) : List Nat :=
  matches_ref_cur.enum.filterMap
    (fun p => if (p.1 : Int) ∈ inliers then none else some p.2.2)

/-- Modelled from the spec: the body of `Tracker::removeOutliersMono` is not
among the provided sources (only its declaration in `Tracker.h` is).  Per
the spec it invalidates (unassigns the landmark id of) every matched
keypoint whose match-list position is not in the inlier index set, in both
frames symmetrically; the `iterations` argument only feeds diagnostics and
leaves frame state untouched. -/
def removeOutliersMono (ref_frame cur_frame : Frame)
    (matches_ref_cur : List (Nat × Nat)) (inliers : List Int)
    (_iterations : Int) : Frame × Frame :=
  (unassignLandmarks ref_frame (refOutlierKpIdxs matches_ref_cur inliers),
   unassignLandmarks cur_frame (curOutlierKpIdxs matches_ref_cur inliers))

/-- Fold applying a sequence of `updateInterFrameRotation` calls to a
predictor, keeping the state component of each call. -/
def applyUpdates (s : RotationalOpticalFlowPredictor) (rs : List Mat3) :
    RotationalOpticalFlowPredictor :=
  rs.foldl (fun st r => (st.updateInterFrameRotation r).1) s

/-- Multiplying by the identity matrix on the right is the identity. -/
theorem Mat3.mul_id (A : Mat3) : A.mul Mat3.id = A := by
  cases A
  simp [Mat3.mul, Mat3.id]

/-- The identity matrix acts as the identity on vectors. -/
theorem Mat3.id_mulVec (v : Vec3) : Mat3.id.mulVec v = v := by
  cases v
  simp [Mat3.mulVec, Mat3.id]

/-- A matrix with nonzero determinant times its adjugate-based inverse is
the identity. -/
theorem Mat3.mul_inv_cancel (A : Mat3) (h : A.det ≠ 0) : A.mul A.inv = Mat3.id := by
  obtain ⟨a, b, c, d, e, f, g, p, q⟩ := A
  simp only [Mat3.det] at h
  simp only [Mat3.mul, Mat3.inv, Mat3.det, Mat3.id, Mat3.mk.injEq]
  refine ⟨?_, ?_, ?_, ?_, ?_, ?_, ?_, ?_, ?_⟩ <;> (field_simp; ring)

/-- Applying `predictKeypoint` with the identity homography returns the
keypoint unchanged. -/
theorem predictKeypoint_id (p : KeypointCV) : predictKeypoint Mat3.id p = p := by
  simp [predictKeypoint, Mat3.mulVec, Mat3.id]

/-- C1: for every input keypoint list, `RotationalOpticalFlowPredictor::predictFlow`
forms `H = K·R·K⁻¹` from the stored intrinsic matrix, its precomputed
inverse and the last-set inter-frame rotation, lifts each previous keypoint
to `(x, y, 1)`, applies `H`, and outputs the perspective division when the
transformed depth component is strictly positive, falling back to the
original keypoint (never an error) when it is non-positive. -/
theorem rotational_predictFlow_pointwise_spec
    (s : RotationalOpticalFlowPredictor) (prev_kps : KeypointsCV)
    (i : Nat) (p : KeypointCV) (h : prev_kps[i]? = some p) :
    (s.predictFlow prev_kps).2[i]? =
      some
        (let H : Mat3 := (s.K_.mul s.inter_frame_rotation_).mul s.K_inverse_
         let p2 : Vec3 := H.mulVec ⟨p.1, p.2, 1⟩
         if 0 < p2.z then (p2.x / p2.z, p2.y / p2.z) else p) := by
  simp [RotationalOpticalFlowPredictor.predictFlow, List.getElem?_map, h, predictKeypoint]

/-- Witness for C1 at a concrete predictor and keypoint list. -/
theorem rotational_predictFlow_pointwise_spec_witness :
    (([((1 : ℚ), (2 : ℚ))] : KeypointsCV)[0]? = some ((1 : ℚ), (2 : ℚ))) ∧
    ((mkRotationalOpticalFlowPredictor Mat3.id).predictFlow
        [((1 : ℚ), (2 : ℚ))]).2[0]? = some ((1 : ℚ), (2 : ℚ)) := by
  refine ⟨rfl, ?_⟩
  have h := rotational_predictFlow_pointwise_spec (mkRotationalOpticalFlowPredictor Mat3.id)
    [((1 : ℚ), (2 : ℚ))] 0 ((1 : ℚ), (2 : ℚ)) rfl
  rw [h]
  norm_num [mkRotationalOpticalFlowPredictor, Mat3.mul, Mat3.inv, Mat3.det, Mat3.id,
    Mat3.mulVec]

/-- C2: `SillyOpticalFlowPredictor::predictFlow` sets the output list equal
to `prev_kps` element-for-element in identical order and returns `true`
unconditionally. -/
theorem silly_predictFlow_identity (prev_kps : KeypointsCV) :
    sillyPredictFlow prev_kps = (true, prev_kps) ∧
    ∀ i : Nat, (sillyPredictFlow prev_kps).2[i]? = prev_kps[i]? :=
  ⟨rfl, fun _ => rfl⟩

/-- C6: `LoopResult::isLoop()` returns `true` exactly when `status_` is
`LCDStatus::LOOP_DETECTED`, and returns `false` for each of the seven other
status values. -/
theorem loopResult_isLoop_iff :
    (∀ r : LoopResult, r.isLoop = true ↔ r.status_ = LCDStatus.LOOP_DETECTED) ∧
    (∀ (q m : Nat) (pose : Pose3),
      (LoopResult.mk .NO_MATCHES q m pose).isLoop = false ∧
      (LoopResult.mk .LOW_NSS_FACTOR q m pose).isLoop = false ∧
      (LoopResult.mk .LOW_SCORE q m pose).isLoop = false ∧
      (LoopResult.mk .NO_GROUPS q m pose).isLoop = false ∧
      (LoopResult.mk .FAILED_TEMPORAL_CONSTRAINT q m pose).isLoop = false ∧
      (LoopResult.mk .FAILED_GEOM_VERIFICATION q m pose).isLoop = false ∧
      (LoopResult.mk .FAILED_POSE_RECOVERY q m pose).isLoop = false) := by
  constructor
  · intro r
    simp [LoopResult.isLoop]
  · intro q m pose
    exact ⟨rfl, rfl, rfl, rfl, rfl, rfl, rfl⟩

/-- C9: `RotationalOpticalFlowPredictor::predictFlow` returns `true` on
every input (including the empty list), writes exactly one predicted
keypoint per input keypoint, and keeps the index order of the input list:
slot `i` of the output is computed from slot `i` of the input. -/
theorem rotational_predictFlow_total_and_aligned
    (s : RotationalOpticalFlowPredictor) (prev_kps : KeypointsCV) :
    (s.predictFlow prev_kps).1 = true ∧
    (s.predictFlow prev_kps).2.length = prev_kps.length ∧
    ∀ i : Nat, (s.predictFlow prev_kps).2[i]? =
      (prev_kps[i]?).map
        (predictKeypoint ((s.K_.mul s.inter_frame_rotation_).mul s.K_inverse_)) := by
  refine ⟨rfl, ?_, ?_⟩
  · simp [RotationalOpticalFlowPredictor.predictFlow]
  · intro i
    simp [RotationalOpticalFlowPredictor.predictFlow, List.getElem?_map]

/-- C10: evaluation of `RotationalOpticalFlowPredictor::updateInterFrameRotation`
at a concrete call: the body assigns the rotation and falls off the end of
the `bool`-declared function without a return statement, so no well-defined
boolean return value is produced (modelled as `none`). -/
theorem updateInterFrameRotation_missing_return :
    ((mkRotationalOpticalFlowPredictor Mat3.id).updateInterFrameRotation Mat3.id).2 = none :=
  rfl

/-- C3: with the identity rotation set as the inter-frame rotation (and an
invertible intrinsic matrix `K`), `RotationalOpticalFlowPredictor::predictFlow`
produces exactly the same output list and the same boolean result as
`SillyOpticalFlowPredictor::predictFlow`. -/
theorem rotational_identity_rot_eq_silly
    (K : Mat3) (prev_kps : KeypointsCV) (h : K.det ≠ 0) :
    ((mkRotationalOpticalFlowPredictor K).updateInterFrameRotation Mat3.id).1.predictFlow
        prev_kps = sillyPredictFlow prev_kps := by
  have hH : (K.mul Mat3.id).mul K.inv = Mat3.id := by
    rw [Mat3.mul_id]
    exact Mat3.mul_inv_cancel K h
  have hpt : predictKeypoint Mat3.id = fun p => p := funext predictKeypoint_id
  simp only [RotationalOpticalFlowPredictor.predictFlow, mkRotationalOpticalFlowPredictor,
    RotationalOpticalFlowPredictor.updateInterFrameRotation, sillyPredictFlow, hH, hpt,
    List.map_id']

/-- Witness for C3 at the identity intrinsic matrix and a one-point list. -/
theorem rotational_identity_rot_eq_silly_witness :
    Mat3.id.det ≠ 0 ∧
    ((mkRotationalOpticalFlowPredictor Mat3.id).updateInterFrameRotation Mat3.id).1.predictFlow
        [((3 : ℚ), (4 : ℚ))] = sillyPredictFlow [((3 : ℚ), (4 : ℚ))] :=
  ⟨by norm_num [Mat3.det, Mat3.id],
   rotational_identity_rot_eq_silly Mat3.id [((3 : ℚ), (4 : ℚ))]
     (by norm_num [Mat3.det, Mat3.id])⟩

/-- C5: `MatchIsland::operator<` and `operator>` compare solely by
`island_score_`; the comparison is a strict weak order (irreflexive,
asymmetric, transitive, with transitive incomparability), and `a < b` holds
exactly when `b > a`. -/
theorem matchIsland_lt_strict_weak_order :
    (∀ a b : MatchIsland, a.ltb b = decide (a.island_score_ < b.island_score_) ∧
      a.gtb b = decide (b.island_score_ < a.island_score_)) ∧
    (∀ a : MatchIsland, a.ltb a = false) ∧
    (∀ a b : MatchIsland, a.ltb b = true → b.ltb a = false) ∧
    (∀ a b c : MatchIsland, a.ltb b = true → b.ltb c = true → a.ltb c = true) ∧
    (∀ a b : MatchIsland, a.ltb b = b.gtb a) ∧
    (∀ a b c : MatchIsland, a.ltb b = false → b.ltb a = false →
      b.ltb c = false → c.ltb b = false → a.ltb c = false ∧ c.ltb a = false) := by
  refine ⟨fun a b => ⟨rfl, rfl⟩, fun a => ?_, fun a b hab => ?_, fun a b c hab hbc => ?_,
    fun a b => rfl, fun a b c h1 h2 h3 h4 => ?_⟩
  · simp [MatchIsland.ltb]
  · simp only [MatchIsland.ltb, decide_eq_true_eq] at hab
    simp only [MatchIsland.ltb, decide_eq_false_iff_not]
    exact not_lt.mpr hab.le
  · simp only [MatchIsland.ltb, decide_eq_true_eq] at hab hbc ⊢
    exact lt_trans hab hbc
  · simp only [MatchIsland.ltb, decide_eq_false_iff_not, not_lt] at h1 h2 h3 h4 ⊢
    have hab : a.island_score_ = b.island_score_ := le_antisymm h2 h1
    have hbc : b.island_score_ = c.island_score_ := le_antisymm h4 h3
    constructor <;> simp [hab, hbc]

/-- Witness for C5: asymmetry applied at two concrete islands. -/
theorem matchIsland_lt_strict_weak_order_witness :
    (MatchIsland.mkRangeScore 0 1 1).ltb (MatchIsland.mkRangeScore 2 3 2) = true ∧
    (MatchIsland.mkRangeScore 2 3 2).ltb (MatchIsland.mkRangeScore 0 1 1) = false := by
  have h1 : (MatchIsland.mkRangeScore 0 1 1).ltb (MatchIsland.mkRangeScore 2 3 2) = true := by
    norm_num [MatchIsland.ltb, MatchIsland.mkRangeScore]
  exact ⟨h1, matchIsland_lt_strict_weak_order.2.2.1 _ _ h1⟩

/-- State equality for a predictor after a nonempty sequence of rotation
updates: the intrinsic fields are preserved and the stored rotation is the
last one written. -/
theorem applyUpdates_eq (s : RotationalOpticalFlowPredictor) (rs : List Mat3)
    (h : rs ≠ []) :
    applyUpdates s rs = { s with inter_frame_rotation_ := rs.getLast h } := by
  induction rs generalizing s with
  | nil => exact absurd rfl h
  | cons r rs ih =>
    cases rs with
    | nil => rfl
    | cons r2 rs2 =>
      have hne : (r2 :: rs2) ≠ [] := List.cons_ne_nil r2 rs2
      have step : applyUpdates s (r :: r2 :: rs2) =
          applyUpdates { s with inter_frame_rotation_ := r } (r2 :: rs2) := rfl
      rw [step, ih _ hne]
      simp [List.getLast_cons hne]

/-- C7: the rotational predictor holds exactly one inter-frame rotation
between calls: after any nonempty sequence of `updateInterFrameRotation`
calls, the stored rotation is exactly the argument of the most recent call,
and the next `predictFlow` call behaves as if only that last update had been
applied (last-write-wins, not a queue). -/
theorem updateInterFrameRotation_last_write_wins
    (s : RotationalOpticalFlowPredictor) (rs : List Mat3) (h : rs ≠ [])
    (prev_kps : KeypointsCV) :
    (applyUpdates s rs).inter_frame_rotation_ = rs.getLast h ∧
    (applyUpdates s rs).predictFlow prev_kps =
      ((s.updateInterFrameRotation (rs.getLast h)).1).predictFlow prev_kps := by
  rw [applyUpdates_eq s rs h]
  exact ⟨rfl, rfl⟩

/-- Witness for C7 at a concrete two-update sequence. -/
theorem updateInterFrameRotation_last_write_wins_witness :
    ([Mat3.id, ⟨0, 1, 0, 1, 0, 0, 0, 0, 1⟩] : List Mat3) ≠ [] ∧
    (applyUpdates (mkRotationalOpticalFlowPredictor Mat3.id)
        [Mat3.id, ⟨0, 1, 0, 1, 0, 0, 0, 0, 1⟩]).inter_frame_rotation_ =
      ([Mat3.id, (⟨0, 1, 0, 1, 0, 0, 0, 0, 1⟩ : Mat3)].getLast (List.cons_ne_nil _ _)) :=
  ⟨List.cons_ne_nil _ _,
   (updateInterFrameRotation_last_write_wins (mkRotationalOpticalFlowPredictor Mat3.id)
     [Mat3.id, ⟨0, 1, 0, 1, 0, 0, 0, 0, 1⟩] (List.cons_ne_nil _ _) []).1⟩

/-- Unassigning the same index set twice, from the same running index, is
the same as unassigning it once. -/
theorem unassignFrom_idem (idxs : List Nat) (j : Nat) (ls : List Int) :
    unassignFrom idxs j (unassignFrom idxs j ls) = unassignFrom idxs j ls := by
  induction ls generalizing j with
  | nil => rfl
  | cons l ls ih =>
    simp only [unassignFrom]
    by_cases hj : j ∈ idxs <;> simp [hj, ih]

/-- C8: `removeOutliersMono` is idempotent — applying it twice with the same
match list and inlier index set yields exactly the same pair of frame states
as applying it once. -/
theorem removeOutliersMono_idempotent
    (ref_frame cur_frame : Frame) (matches_ref_cur : List (Nat × Nat))
    (inliers : List Int) (its its2 : Int) :
    removeOutliersMono (removeOutliersMono ref_frame cur_frame matches_ref_cur inliers its).1
      (removeOutliersMono ref_frame cur_frame matches_ref_cur inliers its).2
      matches_ref_cur inliers its2 =
    removeOutliersMono ref_frame cur_frame matches_ref_cur inliers its := by
  simp [removeOutliersMono, unassignLandmarks, unassignFrom_idem]

/-- Invariant claimed for `MatchIsland`: ids are ordered and `size()` equals
`end_id_ - start_id_ + 1` (stated over `ℤ` to avoid truncation ambiguity). -/
def matchIslandInv (i : MatchIsland) : Prop :=
  i.start_id_ ≤ i.end_id_ ∧
    (i.size : Int) = (i.end_id_ : Int) - (i.start_id_ : Int) + 1

/-- Counterexample for C4: `MatchIsland(start, end)` performs no validation,
so `MatchIsland(2, 0)` is reachable through a constructor yet violates
`start_id_ <= end_id_` (and its `size()` is the wrapped 64-bit value, not
`end_id_ - start_id_ + 1`). -/
theorem matchIsland_ctor_invariant_cex :
    ¬ matchIslandInv (MatchIsland.mkRange 2 0) := by
  intro h
  exact absurd h.1 (by decide)

/-- C4 amended: every `MatchIsland` reachable through the default
constructor or `clear()` satisfies the invariant unconditionally, and one
reachable through the two parameterized constructors satisfies it whenever
the arguments are ordered (`start <= end`) and the count `end - start + 1`
does not wrap 64-bit arithmetic. -/
theorem matchIsland_invariant_amended
    (start stop : Nat) (score : ℚ) (i : MatchIsland)
    (h1 : start ≤ stop) (h2 : stop < UINT64_MOD) (h3 : stop - start + 1 < UINT64_MOD) :
    matchIslandInv (MatchIsland.mkRange start stop) ∧
    matchIslandInv (MatchIsland.mkRangeScore start stop score) ∧
    matchIslandInv MatchIsland.mkDefault ∧
    matchIslandInv i.clear := by
  simp only [matchIslandInv, MatchIsland.mkRange, MatchIsland.mkRangeScore,
    MatchIsland.mkDefault, MatchIsland.clear, MatchIsland.size, UINT64_MOD] at *
  omega

/-- Witness for C4's amended invariant at concrete constructor arguments. -/
theorem matchIsland_invariant_amended_witness :
    1 ≤ 3 ∧ 3 < UINT64_MOD ∧ 3 - 1 + 1 < UINT64_MOD ∧
    (matchIslandInv (MatchIsland.mkRange 1 3) ∧
     matchIslandInv (MatchIsland.mkRangeScore 1 3 5) ∧
     matchIslandInv MatchIsland.mkDefault ∧
     matchIslandInv (MatchIsland.clear MatchIsland.mkDefault)) :=
  ⟨by decide, by decide, by decide,
   matchIsland_invariant_amended 1 3 5 MatchIsland.mkDefault (by decide) (by decide)
     (by decide)⟩

end VIO
